import Mathlib

/-!
Shallow embedding of the Option_Agent decision pipeline
(`app/services/signals.py`, `app/services/options.py`,
`app/candidate/candidate_access.py`, `app/services/stock_researcher.py`,
`app/services/announcement_classifier.py`,
`app/services/announcement_workflow.py`) together with theorems checking the
natural-language specification against the code.

Conventions:
* Python floats are modelled as `ℚ`; a float `NaN` (as produced by pandas,
  e.g. by `pct_change()` on the first row) is modelled as `none` of
  `Option ℚ`.  Python comparisons against `NaN` are `False`; the helpers
  `ogeb`/`oleb`/`ogtb`/`oltb` reproduce that.
* Python dict lookups with `.get(k, d)` on possibly-absent keys are modelled
  with `Option` and `Option.getD`.
* Database reads are modelled as oracle functions passed as arguments
  (e.g. `metricsAt : ℤ → Option Metrics`), dates as `ℤ` (day numbers).
-/

namespace OptionAgent

/-- `x >= c` where `x` may be `NaN` (`none`): comparisons with `NaN` are false. -/
def ogeb (x : Option ℚ) (c : ℚ) : Bool :=
  match x with
  | some v => decide (c ≤ v)
  | none => false

/-- `x <= c` where `x` may be `NaN` (`none`). -/
def oleb (x : Option ℚ) (c : ℚ) : Bool :=
  match x with
  | some v => decide (v ≤ c)
  | none => false

/-- `x > c` where `x` may be `NaN` (`none`). -/
def ogtb (x : Option ℚ) (c : ℚ) : Bool :=
  match x with
  | some v => decide (c < v)
  | none => false

/-- `x < c` where `x` may be `NaN` (`none`). -/
def oltb (x : Option ℚ) (c : ℚ) : Bool :=
  match x with
  | some v => decide (v < c)
  | none => false

/-! ## app/services/signals.py -/

/-- One row of the daily price history (`DailyPrice` as loaded by
`get_price_history`): date, open, high, low, close, volume.
`open` is a Lean keyword, hence the field name `open_`. -/
structure PriceRow where
  date : ℤ
  open_ : ℚ
  high : ℚ
  low : ℚ
  close : ℚ
  volume : ℚ
deriving DecidableEq, Repr

def dummyRow : PriceRow := ⟨0, 0, 0, 0, 0, 0⟩

def closeAt (rows : List PriceRow) (i : ℕ) : ℚ := (rows.getD i dummyRow).close

def openAt (rows : List PriceRow) (i : ℕ) : ℚ := (rows.getD i dummyRow).open_

def highAt (rows : List PriceRow) (i : ℕ) : ℚ := (rows.getD i dummyRow).high

def lowAt (rows : List PriceRow) (i : ℕ) : ℚ := (rows.getD i dummyRow).low

def volumeAt (rows : List PriceRow) (i : ℕ) : ℚ := (rows.getD i dummyRow).volume

/-- `df["prev_close"] = df["close"].shift(1)` followed by filling the `NaN`
of the first row with that row's own close (`compute_basic_features`). -/
def prev_close (rows : List PriceRow) (i : ℕ) : ℚ :=
  if i = 0 then closeAt rows 0 else closeAt rows (i - 1)

/-- `df["return"] = df["close"].pct_change()`: the first row has no previous
close, so its return is `NaN` (`none`).  The `prev_close` fill in
`compute_basic_features` is applied only to the `prev_close` column, not to
`return`. -/
def retF (rows : List PriceRow) (i : ℕ) : Option ℚ :=
  if i = 0 then none else some (closeAt rows i / closeAt rows (i - 1) - 1)

/-- `true_range = max(tr1, tr2, tr3)` with
`tr1 = high - low`, `tr2 = |high - prev_close|`, `tr3 = |low - prev_close|`. -/
def true_range (rows : List PriceRow) (i : ℕ) : ℚ :=
  max (highAt rows i - lowAt rows i)
    (max |highAt rows i - prev_close rows i| |lowAt rows i - prev_close rows i|)

/-- Indices of the trailing window used by `rolling(window=3, min_periods=1)`
ending at row `i`: the last `min 3 (i+1)` indices. -/
def windowIdx (i : ℕ) : List ℕ :=
  (List.range (i + 1)).filter (fun j => i ≤ j + 2)

/-- `df["atr"] = df["true_range"].rolling(window=3, min_periods=1).mean()`. -/
def atr (rows : List PriceRow) (i : ℕ) : ℚ :=
  ((windowIdx i).map (true_range rows)).sum / ((windowIdx i).length : ℚ)

/-- `df["atr_pct"] = df["atr"] / df["close"]`. -/
def atr_pct (rows : List PriceRow) (i : ℕ) : ℚ :=
  atr rows i / closeAt rows i

/-- `df["vol_ma"] = df["volume"].rolling(window=3, min_periods=1).mean()`. -/
def vol_ma (rows : List PriceRow) (i : ℕ) : ℚ :=
  ((windowIdx i).map (volumeAt rows)).sum / ((windowIdx i).length : ℚ)

/-- `df["vol_spike"] = df["volume"] / df["vol_ma"]`. -/
def vol_spike (rows : List PriceRow) (i : ℕ) : ℚ :=
  volumeAt rows i / vol_ma rows i

/-- `df["gap_pct"] = (df["open"] - df["prev_close"]) / df["prev_close"]`. -/
def gap_pct (rows : List PriceRow) (i : ℕ) : ℚ :=
  (openAt rows i - prev_close rows i) / prev_close rows i

/-- `score_row`: each of the four features contributes only when it is not
`NaN` (`pd.notna`); a missing term contributes `0`. -/
def score_row (atrPct volSpike gapPct ret : Option ℚ) : ℚ :=
  (match atrPct with
   | some a => a * 100
   | none => 0)
  + (match volSpike with
     | some v => max 0 (v - 1) * 2
     | none => 0)
  + (match gapPct with
     | some g => |g| * 10
     | none => 0)
  + (match ret with
     | some r => |r| * 10
     | none => 0)

/-- The metrics dict returned by `score_symbol_for_date`.  Fields that can be
`NaN` floats (the first-row `return`, and degenerate divisions) are
`Option ℚ`; `float(x or 0.0)` maps `NaN` to `NaN` (Python `NaN` is truthy),
so `none` is preserved. -/
structure Metrics where
  symbol : Option String
  score : ℚ
  atr_pct : Option ℚ
  vol_spike : Option ℚ
  gap_pct : Option ℚ
  ret : Option ℚ
deriving DecidableEq, Repr

/-- `score_symbol_for_date`: loads the (date-sorted) price history `rows`,
computes the features, picks the first row whose date equals `target`, and
packages the metrics dict; `None` when the history is empty or no row matches
the target date. -/
def score_symbol_for_date (sym : String) (rows : List PriceRow) (target : ℤ) :
    Option Metrics :=
  if rows = [] then none
  else
    match rows.findIdx? (fun r => r.date = target) with
    | none => none
    | some i =>
      some
        { symbol := some sym
          score := score_row (some (atr_pct rows i)) (some (vol_spike rows i))
            (some (gap_pct rows i)) (retF rows i)
          atr_pct := some (atr_pct rows i)
          vol_spike := some (vol_spike rows i)
          gap_pct := some (gap_pct rows i)
          ret := retF rows i }

/-! ## app/candidate/candidate_access.py -/

/-- `classify_direction_and_strategy`: rule-based direction + strategy from
the metrics dict.  The inputs arrive through `metrics.get(k, 0.0) or 0.0`
which keeps a `NaN` (`none`) as is, so the comparisons use the
`NaN`-aware helpers (false on `none`). -/
def classify_direction_and_strategy (ret volSpike gap atrPct : Option ℚ) :
    String × String :=
  if ogeb ret (3/100) && ogeb volSpike (13/10) && ogtb gap (-(1/100)) then
    ("bullish",
      if oltb atrPct (4/100) then "buy near-ATM call; avoid very far OTM strikes"
      else "bull call spread (buy near-ATM call, sell higher strike)")
  else if oleb ret (-(3/100)) && ogeb volSpike (13/10) then
    ("bearish",
      if oltb atrPct (4/100) then "buy near-ATM put; avoid very far OTM strikes"
      else "bear put spread (buy near-ATM put, sell lower strike)")
  else
    ("neutral",
      if oltb (Option.map abs ret) (1/100) && oltb volSpike (12/10) then
        "very quiet; probably skip or trade only if intraday setup is clean"
      else if ogeb atrPct (3/100) then
        "range-bound options (iron condor / short strangle) if experienced"
      else "no strong view; consider skipping")

/-! ## app/services/options.py -/

/-- One `option_chain` row for the queried symbol and trade date. -/
structure OptionRow where
  expiry : ℤ
  strike : ℚ
  oi : ℚ
  volume : ℚ
deriving DecidableEq, Repr

/-- The snapshot dict built by `get_options_liquidity` (the `symbol`/`date`
entries merely echo the arguments and are omitted). -/
structure Liq where
  spot : ℚ
  expiry : ℤ
  total_oi : ℚ
  total_volume : ℚ
deriving DecidableEq, Repr

/-- `SELECT MIN(expiry)` over a list, `none` when no row qualifies. -/
def minList : List ℤ → Option ℤ
  | [] => none
  | x :: xs =>
    match minList xs with
    | none => some x
    | some m => some (min x m)

/-- `get_nearest_expiry`: minimum option-chain expiry `≥ trade_date` among the
rows present on the trade date (`rows` is already the set of `option_chain`
rows for this symbol and date). -/
def get_nearest_expiry (rows : List OptionRow) (d : ℤ) : Option ℤ :=
  minList (((rows.filter (fun r => d ≤ r.expiry))).map (fun r => r.expiry))

/-- The rows summed by `get_options_liquidity`: at the chosen expiry with
strike within `[spot*(1-band), spot*(1+band)]`. -/
def bandRows (rows : List OptionRow) (expiry : ℤ) (spot band : ℚ) :
    List OptionRow :=
  rows.filter (fun r =>
    r.expiry = expiry ∧ spot * (1 - band) ≤ r.strike ∧ r.strike ≤ spot * (1 + band))

/-- `SUM(oi)` over the in-band rows (with `COALESCE(..., 0)`). -/
def bandOI (rows : List OptionRow) (expiry : ℤ) (spot band : ℚ) : ℚ :=
  ((bandRows rows expiry spot band).map (fun r => r.oi)).sum

/-- `SUM(volume)` over the in-band rows (with `COALESCE(..., 0)`). -/
def bandVolume (rows : List OptionRow) (expiry : ℤ) (spot band : ℚ) : ℚ :=
  ((bandRows rows expiry spot band).map (fun r => r.volume)).sum

/-- `get_options_liquidity`: spot check, nearest expiry, in-band OI/volume
sums, and the dead-snapshot check.  `spotPrice` is the result of
`get_spot_price` (close on the trade date, `none` when missing). -/
def get_options_liquidity (spotPrice : Option ℚ) (rows : List OptionRow)
    (d : ℤ) (band : ℚ) : Option Liq :=
  match spotPrice with
  | none => none
  | some spot =>
    if spot ≤ 0 then none
    else
      match get_nearest_expiry rows d with
      | none => none
      | some expiry =>
        let total_oi := bandOI rows expiry spot band
        let total_volume := bandVolume rows expiry spot band
        if total_oi = 0 ∧ total_volume = 0 then none
        else some ⟨spot, expiry, total_oi, total_volume⟩

/-! ## `get_top_candidates_for_date` (candidate_access.py, steps 2-3) -/

/-- A candidate after the liquidity merge and rule classification. -/
structure Candidate where
  metrics : Metrics
  spot : ℚ
  expiry : ℤ
  total_oi : ℚ
  total_volume : ℚ
  direction : String
  strategy_hint : String
deriving DecidableEq, Repr

/-- The moneyness-band fallback loop: try bands `0.05, 0.1, 0.2, 0.5` in
order, stop at the first band where the liquidity oracle returns a snapshot. -/
def find_liquidity (liqAt : ℚ → Option Liq) : Option Liq :=
  [5/100, 1/10, 2/10, 1/2].findSome? liqAt

/-- The skip test of the liquidity floor: `total_oi < min_oi and
total_volume < min_volume` (the candidate is dropped only when both floors
fail). -/
def liquidity_floor_skip (total_oi total_volume min_oi min_volume : ℚ) : Bool :=
  decide (total_oi < min_oi) && decide (total_volume < min_volume)

/-- Python `if not s` on the symbol slot of a metrics dict: true for a
missing symbol or the empty string. -/
def strFalsy : Option String → Bool
  | none => true
  | some s => s = ""

/-- The per-symbol body of `get_top_candidates_for_date`: skip entries
without a symbol, resolve liquidity with the band fallback, apply the
liquidity floor, and attach direction/strategy. -/
def candidate_step (liqAt : String → ℚ → Option Liq) (min_oi min_volume : ℚ)
    (r : Metrics) : Option Candidate :=
  match r.symbol with
  | none => none
  | some s =>
    if s = "" then none
    else
      match find_liquidity (liqAt s) with
      | none => none
      | some liq =>
        if liquidity_floor_skip liq.total_oi liq.total_volume min_oi min_volume then
          none
        else
          some
            { metrics := r
              spot := liq.spot
              expiry := liq.expiry
              total_oi := liq.total_oi
              total_volume := liq.total_volume
              direction := (classify_direction_and_strategy r.ret r.vol_spike
                r.gap_pct r.atr_pct).1
              strategy_hint := (classify_direction_and_strategy r.ret r.vol_spike
                r.gap_pct r.atr_pct).2 }

/-- `get_top_candidates_for_date` steps 2-4 over the already-scored
`base_results`: filter/enrich each entry, stable-sort by score descending
(Python `list.sort` with `reverse=True` preserves the relative order of
ties), truncate to `limit`. -/
def get_top_candidates_for_date (base : List Metrics)
    (liqAt : String → ℚ → Option Liq) (limit : ℕ) (min_oi min_volume : ℚ) :
    List Candidate :=
  ((base.filterMap (candidate_step liqAt min_oi min_volume)).mergeSort
    (fun a b => b.metrics.score ≤ a.metrics.score)).take limit

/-! ## app/services/stock_researcher.py -/

/-- The classification dict attached to an announcement (fields may be
absent, hence `Option`). -/
structure Classification where
  event_type : Option String
  ai_direction : Option String
  reaction_window : Option String
  confidence : Option String
  explanation : Option String
  headline : Option String
deriving DecidableEq, Repr

/-- The `technicals` block of a research result. -/
structure TechnicalsView where
  direction : String
  strategy_hint : String
  daily_return : Option ℚ
  vol_spike : Option ℚ
  atr_pct : Option ℚ
  gap_pct : Option ℚ
  spot_price : Option ℚ
deriving DecidableEq, Repr

/-- The `options_liquidity` block of a research result. -/
structure OptionsLiquidityView where
  total_oi : ℚ
  total_volume : ℚ
  expiry : Option ℤ
deriving DecidableEq, Repr

/-- The `final_recommendation` block of a research result.  `trade_ready`
models the truthiness of
`confidence_score >= 60 and liquidity and liquidity.get("total_oi", 0) > 0`. -/
structure FinalRecommendation where
  direction : String
  confidence_score : ℤ
  trade_ready : Bool
  suggested_strategy : String
deriving DecidableEq, Repr

/-- A research result (the announcement echo block is omitted: it only
copies fields of the input classification). -/
structure ResearchResult where
  technicals : TechnicalsView
  options_liquidity : OptionsLiquidityView
  final_recommendation : FinalRecommendation
deriving DecidableEq, Repr

/-- The liquidity-resolution loop of `research_stock_with_announcement`
(lines 143-152): for each date in `[announcement_date, used_date]` (the
fallback date only when it differs), try band `0.1` and then band `0.2`,
stopping at the first snapshot. -/
def resolve_liquidity (liqAt : ℤ → ℚ → Option Liq) (annDate usedDate : ℤ) :
    Option Liq :=
  ((if usedDate ≠ annDate then [annDate, usedDate] else [annDate]).findSome?
    (fun d => (liqAt d (1/10)).orElse (fun _ => liqAt d (2/10))))

/-- Modelled from the claim wording (spec §4.6 step 3): try the announcement
date at band 0.1 only; if that is empty, try the fallback date (when it
differs) at band 0.1 and then 0.2.  Used to compare the spec's described
search order with the code's. -/
def resolve_liquidity_claimed (liqAt : ℤ → ℚ → Option Liq)
    (annDate usedDate : ℤ) : Option Liq :=
  (liqAt annDate (1/10)).orElse (fun _ =>
    if usedDate ≠ annDate then
      (liqAt usedDate (1/10)).orElse (fun _ => liqAt usedDate (2/10))
    else none)

/-- The code's actual search order, written out linearly: announcement date
at bands 0.1 then 0.2, then (when it differs) the fallback date at bands 0.1
then 0.2; first non-empty snapshot wins. -/
def resolve_liquidity_amended (liqAt : ℤ → ℚ → Option Liq)
    (annDate usedDate : ℤ) : Option Liq :=
  ((liqAt annDate (1/10)).orElse (fun _ => liqAt annDate (2/10))).orElse (fun _ =>
    if usedDate ≠ annDate then
      (liqAt usedDate (1/10)).orElse (fun _ => liqAt usedDate (2/10))
    else none)

/-- `_generate_strategy_recommendation` (only the fields it reads are
passed; `atr_pct` arrives through `metrics.get("atr_pct", 0) or 0`, keeping
a possible `NaN`). -/
def generate_strategy_recommendation (final_direction : String)
    (atrPct : Option ℚ) (reaction_window : String) : String :=
  if final_direction = "neutral" then
    "Wait for clearer signals or trade intraday only"
  else
    let timing :=
      if reaction_window = "same_day" then "immediate"
      else if reaction_window = "next_day" then "next trading session"
      else "within 1-3 days"
    if final_direction = "bullish" then
      if oltb atrPct (4/100) then
        "Buy near-ATM call options (" ++ timing ++ ") - low volatility, expect sharp move"
      else
        "Bull call spread (" ++ timing ++ ") - buy ATM call, sell OTM call to reduce cost"
    else
      if oltb atrPct (4/100) then
        "Buy near-ATM put options (" ++ timing ++ ") - low volatility, expect sharp move"
      else
        "Bear put spread (" ++ timing ++ ") - buy ATM put, sell OTM put to reduce cost"

/-- The date-fallback search for technical metrics: try the announcement
date and up to 5 preceding calendar days, returning the first date with
metrics together with those metrics. -/
def find_metrics (metricsAt : ℤ → Option Metrics) (annDate : ℤ) :
    Option (ℤ × Metrics) :=
  (List.range 6).findSome? (fun k =>
    (metricsAt (annDate - (k : ℤ))).map (fun m => (annDate - (k : ℤ), m)))

/-- `research_stock_with_announcement`.  `fno` is the membership test of the
symbol in the F&O universe; `metricsAt` is `score_symbol_for_date` on the
database; `liqAt d b` is `get_options_liquidity` at date `d` and moneyness
band `b`. -/
def research_stock_with_announcement (fno : Bool) (cls : Classification)
    (annDate : ℤ) (metricsAt : ℤ → Option Metrics)
    (liqAt : ℤ → ℚ → Option Liq) : ResearchResult :=
  if fno = false then
    { technicals :=
        ⟨"unknown", "Stock not in FNO universe", none, none, none, none, none⟩
      options_liquidity := ⟨0, 0, none⟩
      final_recommendation :=
        ⟨cls.ai_direction.getD "neutral", 30, false,
          "Stock not in FNO universe - cannot trade options. Announcement suggests "
            ++ cls.ai_direction.getD "neutral" ++ " direction."⟩ }
  else
    match find_metrics metricsAt annDate with
    | none =>
      { technicals :=
          ⟨"unknown", "No technical data available", none, none, none, none, none⟩
        options_liquidity := ⟨0, 0, none⟩
        final_recommendation :=
          ⟨cls.ai_direction.getD "neutral",
            if cls.confidence = some "high" then 50 else 30, false,
            "Wait for technical data. Announcement suggests "
              ++ cls.ai_direction.getD "neutral" ++ " direction."⟩ }
    | some (usedDate, m) =>
      let liquidity := resolve_liquidity liqAt annDate usedDate
      let dirStrat := classify_direction_and_strategy m.ret m.vol_spike
        m.gap_pct m.atr_pct
      let direction := dirStrat.1
      let annDir := cls.ai_direction.getD "neutral"
      let reaction_window := cls.reaction_window.getD "next_day"
      let final_direction :=
        if annDir = "bullish" ∧ (direction = "bullish" ∨ direction = "neutral") then
          "bullish"
        else if annDir = "bearish" ∧ (direction = "bearish" ∨ direction = "neutral") then
          "bearish"
        else if annDir = direction ∧ direction ≠ "neutral" then direction
        else "neutral"
      let ann_confidence := cls.confidence.getD "low"
      let confidence_score : ℤ :=
        min
          (50 + (if annDir = direction ∧ direction ≠ "neutral" then 20 else 0)
            + (if ann_confidence = "high" then 15
               else if ann_confidence = "medium" then 10 else 0)
            + (if ogtb m.vol_spike (3/2) then 10 else 0)
            + (if ogtb (Option.map abs m.ret) (3/100) then 10 else 0))
          100
      { technicals :=
          ⟨direction, dirStrat.2, m.ret, m.vol_spike, m.atr_pct, m.gap_pct,
            liquidity.map (fun l => l.spot)⟩
        options_liquidity :=
          ⟨(liquidity.map (fun l => l.total_oi)).getD 0,
            (liquidity.map (fun l => l.total_volume)).getD 0,
            liquidity.map (fun l => l.expiry)⟩
        final_recommendation :=
          ⟨final_direction, confidence_score,
            decide (60 ≤ confidence_score) && liquidity.isSome
              && ogtb (liquidity.map (fun l => l.total_oi)) 0,
            generate_strategy_recommendation final_direction m.atr_pct
              reaction_window⟩ }

/-! ## app/services/announcement_classifier.py -/

/-- A raw announcement dict; `classification` is attached during the
classification pass. -/
structure Announcement where
  symbol : Option String
  headline : Option String
  event_date : Option String
  category : Option String
  url : Option String
  source : Option String
  classification : Option Classification
deriving DecidableEq, Repr

/-- Python `needle in hay` on strings. -/
def contains_substr (needle hay : String) : Bool :=
  decide (List.IsInfix needle.toList hay.toList)

/-- Python `s.lower()` (character-wise lowering). -/
def str_lower (s : String) : String := String.mk (s.data.map Char.toLower)

/-- The rate-limit signature test of the classify loop:
`"429" in str(e) or "rate limit" in str(e).lower()`. -/
def is_rate_limit (e : String) : Bool :=
  contains_substr "429" e || contains_substr "rate limit" (str_lower e)

/-- `classify_announcement`: the LLM chain outcome is wrapped in
`try/except`; on any error the neutral low-confidence default is returned,
so the function itself never raises (it is total). -/
def classify_announcement (chain : Except String Classification) :
    Classification :=
  match chain with
  | .ok r => r
  | .error e =>
    ⟨some "neutral", some "neutral", some "1_3_days", some "low",
      some ("Classification error: " ++ e), none⟩

/-- `confidence_levels.get(s, 1)` with
`confidence_levels = {"low": 1, "medium": 2, "high": 3}`. -/
def conf_level (s : String) : ℕ :=
  if s = "low" then 1 else if s = "medium" then 2 else if s = "high" then 3 else 1

/-- `confidence_levels.get(min_confidence, 2)`. -/
def min_conf_level (s : String) : ℕ :=
  if s = "low" then 1 else if s = "medium" then 2 else if s = "high" then 3 else 2

/-- The confidence/direction filter of the classify loop:
`conf_level >= min_level and direction != "neutral"`. -/
def passes_filter (c : Classification) (minLevel : ℕ) : Bool :=
  decide (minLevel ≤ conf_level (c.confidence.getD "low"))
    && decide (c.ai_direction.getD "neutral" ≠ "neutral")

/-- `classification["headline"] = headline; ann["classification"] =
classification`. -/
def attach_classification (ann : Announcement) (c : Classification) :
    Announcement :=
  { ann with classification := some { c with headline := ann.headline } }

/-- The per-announcement classify loop of
`filter_high_volatility_announcements` (its step 2, after the keyword
pre-filter).  `call ann n` is the outcome of the `n`-th call to
`classify_announcement` for `ann` (`.error` modelling a raised exception,
which the loop's handler guards against): items without symbol or headline
are skipped; a first-call error with a rate-limit signature triggers exactly
one retry; any other error, or a failed retry, skips the single item and the
rest of the batch is processed unchanged. -/
def classification_pass (call : Announcement → ℕ → Except String Classification)
    (minLevel : ℕ) : List Announcement → List Announcement
  | [] => []
  | ann :: rest =>
    if strFalsy ann.symbol || strFalsy ann.headline then
      classification_pass call minLevel rest
    else
      match call ann 0 with
      | .ok c =>
        (if passes_filter c minLevel then [attach_classification ann c] else [])
          ++ classification_pass call minLevel rest
      | .error e =>
        if is_rate_limit e then
          match call ann 1 with
          | .ok c =>
            (if passes_filter c minLevel then [attach_classification ann c] else [])
              ++ classification_pass call minLevel rest
          | .error _ => classification_pass call minLevel rest
        else classification_pass call minLevel rest

/-! ## app/services/announcement_workflow.py -/

/-- The `WorkflowState` TypedDict threaded between the stage functions. -/
structure WorkflowState where
  target_date : ℤ
  announcements : List Announcement
  high_vol_announcements : List Announcement
  research_results : List ResearchResult
  errors : List String
  step : String
deriving DecidableEq, Repr

/-- The initial state built by `run_daily_announcement_pipeline`. -/
def initial_state (d : ℤ) : WorkflowState :=
  ⟨d, [], [], [], [], "started"⟩

/-- Stage 1, `scrape_announcements`: `scrapeRes` is the outcome of the
scraping/ingestion block (`.error` when it raises); on success the state
moves to `scraped` with the announcements, on failure to `error` with the
error recorded. -/
def scrape_stage (st : WorkflowState)
    (scrapeRes : Except String (List Announcement)) : WorkflowState :=
  match scrapeRes with
  | .ok anns => { st with announcements := anns, step := "scraped" }
  | .error e =>
    { st with errors := st.errors ++ ["Scraping error: " ++ e], step := "error" }

/-- Stage 2, `classify_announcements`: with no announcements the stage
returns immediately (its work — dedup passes and the LLM filter, here the
oracle `classifyO` — is not invoked); otherwise the work runs and a raise
moves the state to `error`. -/
def classify_stage (st : WorkflowState)
    (classifyO : List Announcement → Except String (List Announcement)) :
    WorkflowState :=
  if st.announcements = [] then
    { st with high_vol_announcements := [], step := "classified" }
  else
    match classifyO st.announcements with
    | .ok hv => { st with high_vol_announcements := hv, step := "classified" }
    | .error e =>
      { st with
          errors := st.errors ++ ["Classification error: " ++ e]
          step := "error" }

/-- Stage 3, `research_stocks`: with no high-volatility announcements the
stage returns immediately; otherwise its work (`research_multiple_stocks`,
the oracle `researchO`) runs, a raise moving the state to `error`. -/
def research_stage (st : WorkflowState)
    (researchO : List Announcement → Except String (List ResearchResult)) :
    WorkflowState :=
  if st.high_vol_announcements = [] then
    { st with research_results := [], step := "completed" }
  else
    match researchO st.high_vol_announcements with
    | .ok rs => { st with research_results := rs, step := "completed" }
    | .error e =>
      { st with
          errors := st.errors ++ ["Research error: " ++ e]
          step := "error" }

/-- The summary block of the pipeline result. -/
structure PipelineSummary where
  total_announcements : ℕ
  high_vol_count : ℕ
  researched_count : ℕ
  trade_ready_count : ℕ
deriving DecidableEq, Repr

/-- The dict returned by `run_daily_announcement_pipeline`. -/
structure PipelineResult where
  announcements : List Announcement
  high_vol_announcements : List Announcement
  research_results : List ResearchResult
  trade_recommendations : List ResearchResult
  errors : List String
  summary : PipelineSummary
deriving DecidableEq, Repr

/-- `run_daily_announcement_pipeline`: the LangGraph edges
`scrape → classify → research → END` are unconditional, so the run is the
sequential composition of the three stage functions on the initial state;
the returned dict extracts the trade-ready results and the count summary. -/
def run_daily_announcement_pipeline (d : ℤ)
    (scrapeRes : Except String (List Announcement))
    (classifyO : List Announcement → Except String (List Announcement))
    (researchO : List Announcement → Except String (List ResearchResult)) :
    PipelineResult :=
  let final := research_stage
    (classify_stage (scrape_stage (initial_state d) scrapeRes) classifyO)
    researchO
  let tr := final.research_results.filter
    (fun r => r.final_recommendation.trade_ready)
  { announcements := final.announcements
    high_vol_announcements := final.high_vol_announcements
    research_results := final.research_results
    trade_recommendations := tr
    errors := final.errors
    summary :=
      ⟨final.announcements.length, final.high_vol_announcements.length,
        final.research_results.length, tr.length⟩ }

/-! ## Theorems -/

/-- Helper: the direction component of the rule table on fully defined
inputs, as a chain of plain conditionals. -/
theorem classify_direction_fst (r v g a : ℚ) :
    (classify_direction_and_strategy (some r) (some v) (some g) (some a)).1
      = if 3/100 ≤ r ∧ 13/10 ≤ v ∧ -(1/100) < g then "bullish"
        else if r ≤ -(3/100) ∧ 13/10 ≤ v then "bearish"
        else "neutral" := by
  have hb : (ogeb (some r) (3/100) && ogeb (some v) (13/10)
      && ogtb (some g) (-(1/100))) = true
      ↔ (3/100 ≤ r ∧ 13/10 ≤ v ∧ -(1/100) < g) := by
    simp [ogeb, ogtb, and_assoc]
  have hb2 : (oleb (some r) (-(3/100)) && ogeb (some v) (13/10)) = true
      ↔ (r ≤ -(3/100) ∧ 13/10 ≤ v) := by
    simp [oleb, ogeb]
  unfold classify_direction_and_strategy
  by_cases h1 : 3/100 ≤ r ∧ 13/10 ≤ v ∧ -(1/100) < g
  · rw [if_pos (hb.mpr h1), if_pos h1]
  · by_cases h2 : r ≤ -(3/100) ∧ 13/10 ≤ v
    · rw [if_neg (fun hc => h1 (hb.mp hc)), if_pos (hb2.mpr h2), if_neg h1,
        if_pos h2]
    · rw [if_neg (fun hc => h1 (hb.mp hc)), if_neg (fun hc => h2 (hb2.mp hc)),
        if_neg h1, if_neg h2]

/-- C8: `classify_direction_and_strategy` is a pure function of
(return, vol_spike, gap_pct, atr_pct); on defined inputs the direction is
bullish iff `return ≥ 0.03 ∧ vol_spike ≥ 1.3 ∧ gap_pct > -0.01`, bearish iff
`return ≤ -0.03 ∧ vol_spike ≥ 1.3`, and neutral otherwise; the two concrete
scenarios of the spec give the near-ATM call and the bear put spread. -/
theorem classify_direction_rule_table :
    (∀ r v g a : ℚ,
      ((classify_direction_and_strategy (some r) (some v) (some g) (some a)).1
          = "bullish" ↔ (3/100 ≤ r ∧ 13/10 ≤ v ∧ -(1/100) < g))
      ∧ ((classify_direction_and_strategy (some r) (some v) (some g) (some a)).1
          = "bearish" ↔ (r ≤ -(3/100) ∧ 13/10 ≤ v))
      ∧ (¬(3/100 ≤ r ∧ 13/10 ≤ v ∧ -(1/100) < g) → ¬(r ≤ -(3/100) ∧ 13/10 ≤ v) →
          (classify_direction_and_strategy (some r) (some v) (some g) (some a)).1
            = "neutral"))
    ∧ classify_direction_and_strategy (some (7/200)) (some (7/5)) (some 0)
        (some (1/50))
        = ("bullish", "buy near-ATM call; avoid very far OTM strikes")
    ∧ classify_direction_and_strategy (some (-(1/25))) (some (3/2)) (some 0)
        (some (3/50))
        = ("bearish", "bear put spread (buy near-ATM put, sell lower strike)") := by
  refine ⟨fun r v g a => ⟨?_, ?_, ?_⟩, ?_, ?_⟩
  · rw [classify_direction_fst]
    constructor
    · intro h
      by_cases h1 : 3/100 ≤ r ∧ 13/10 ≤ v ∧ -(1/100) < g
      · exact h1
      · rw [if_neg h1] at h
        by_cases h2 : r ≤ -(3/100) ∧ 13/10 ≤ v
        · rw [if_pos h2] at h
          exact absurd h (by decide)
        · rw [if_neg h2] at h
          exact absurd h (by decide)
    · intro h1
      rw [if_pos h1]
  · rw [classify_direction_fst]
    constructor
    · intro h
      by_cases h1 : 3/100 ≤ r ∧ 13/10 ≤ v ∧ -(1/100) < g
      · rw [if_pos h1] at h
        exact absurd h (by decide)
      · rw [if_neg h1] at h
        by_cases h2 : r ≤ -(3/100) ∧ 13/10 ≤ v
        · exact h2
        · rw [if_neg h2] at h
          exact absurd h (by decide)
    · intro h2
      have h1 : ¬(3/100 ≤ r ∧ 13/10 ≤ v ∧ -(1/100) < g) := by
        intro hc
        have := hc.1
        have := h2.1
        linarith
      rw [if_neg h1, if_pos h2]
  · intro h1 h2
    rw [classify_direction_fst, if_neg h1, if_neg h2]
  · unfold classify_direction_and_strategy
    norm_num [ogeb, ogtb, oleb, oltb]
  · unfold classify_direction_and_strategy
    norm_num [ogeb, ogtb, oleb, oltb]

/-- C8 witness: the neutral fallback at a concrete input where neither rule
fires. -/
theorem classify_direction_rule_table_witness :
    (classify_direction_and_strategy (some 0) (some 1) (some 0) (some 0)).1
      = "neutral" :=
  (classify_direction_rule_table.1 0 1 0 0).2.2 (by norm_num) (by norm_num)

/-- Concrete metrics entry used for the liquidity-floor scenarios. -/
def mFloor : Metrics :=
  ⟨some "X", 5, some (1/50), some 1, some 0, some 0⟩

/-- Band oracle: liquidity found at the first band (0.05) with
`total_oi = 5`, `total_volume = 200`. -/
def liqKeep : String → ℚ → Option Liq := fun _ b =>
  if b = 5/100 then some ⟨450, 10, 5, 200⟩ else none

/-- Band oracle: liquidity found at the first band (0.05) with
`total_oi = 5`, `total_volume = 50`. -/
def liqDrop : String → ℚ → Option Liq := fun _ b =>
  if b = 5/100 then some ⟨450, 10, 5, 50⟩ else none

/-- C6: the candidate ranker drops a symbol only when both `total_oi <
min_oi` and `total_volume < min_volume` hold; with `min_oi = 10`,
`min_volume = 100`, a snapshot with `total_oi = 5, total_volume = 200` is
kept and one with `total_oi = 5, total_volume = 50` is dropped. -/
theorem candidate_liquidity_floor :
    (∀ total_oi total_volume min_oi min_volume : ℚ,
      liquidity_floor_skip total_oi total_volume min_oi min_volume = true
        ↔ (total_oi < min_oi ∧ total_volume < min_volume))
    ∧ get_top_candidates_for_date [mFloor] liqKeep 20 10 100
        = [{ metrics := mFloor
             spot := 450
             expiry := 10
             total_oi := 5
             total_volume := 200
             direction := "neutral"
             strategy_hint := "very quiet; probably skip or trade only if intraday setup is clean" }]
    ∧ get_top_candidates_for_date [mFloor] liqDrop 20 10 100 = [] := by
  refine ⟨fun a b c d => by simp [liquidity_floor_skip], ?_, ?_⟩
  · have h : candidate_step liqKeep 10 100 mFloor
        = some
          { metrics := mFloor
            spot := 450
            expiry := 10
            total_oi := 5
            total_volume := 200
            direction := "neutral"
            strategy_hint := "very quiet; probably skip or trade only if intraday setup is clean" } := by
      norm_num [candidate_step, find_liquidity, liqKeep, liquidity_floor_skip,
        mFloor, classify_direction_and_strategy, ogeb, ogtb, oleb, oltb,
        List.findSome?_cons]
      intro hx
      exact absurd hx (by decide)
    show ((List.filterMap _ _).mergeSort _).take 20 = _
    rw [List.filterMap_cons, h, List.filterMap_nil, List.mergeSort_singleton]
    rfl
  · have h : candidate_step liqDrop 10 100 mFloor = none := by
      norm_num [candidate_step, find_liquidity, liqDrop, liquidity_floor_skip,
        mFloor, classify_direction_and_strategy, ogeb, ogtb, oleb, oltb,
        List.findSome?_cons]
    show ((List.filterMap _ _).mergeSort _).take 20 = _
    rw [List.filterMap_cons, h, List.filterMap_nil, List.mergeSort_nil]
    rfl

/-- C9: the composite score is monotone non-decreasing in each of `atr_pct`,
`max 0 (vol_spike - 1)`, `|gap_pct|` and `|return|` with the other inputs
fixed, and a missing (`NaN`) term contributes `0` (the same score as the
value whose contribution is `0`) instead of aborting. -/
theorem score_row_monotone :
    (∀ (v g r : Option ℚ) (a1 a2 : ℚ), a1 ≤ a2 →
      score_row (some a1) v g r ≤ score_row (some a2) v g r)
    ∧ (∀ (a g r : Option ℚ) (v1 v2 : ℚ), max 0 (v1 - 1) ≤ max 0 (v2 - 1) →
      score_row a (some v1) g r ≤ score_row a (some v2) g r)
    ∧ (∀ (a v r : Option ℚ) (g1 g2 : ℚ), |g1| ≤ |g2| →
      score_row a v (some g1) r ≤ score_row a v (some g2) r)
    ∧ (∀ (a v g : Option ℚ) (r1 r2 : ℚ), |r1| ≤ |r2| →
      score_row a v g (some r1) ≤ score_row a v g (some r2))
    ∧ (∀ v g r, score_row none v g r = score_row (some 0) v g r)
    ∧ (∀ a g r, score_row a none g r = score_row a (some 1) g r)
    ∧ (∀ a v r, score_row a v none r = score_row a v (some 0) r)
    ∧ (∀ a v g, score_row a v g none = score_row a v g (some 0)) := by
  refine ⟨?_, ?_, ?_, ?_, ?_, ?_, ?_, ?_⟩
  · intro v g r a1 a2 h
    unfold score_row
    have : a1 * 100 ≤ a2 * 100 := by linarith
    gcongr
  · intro a g r v1 v2 h
    unfold score_row
    have : max 0 (v1 - 1) * 2 ≤ max 0 (v2 - 1) * 2 := by linarith
    gcongr
  · intro a v r g1 g2 h
    unfold score_row
    have : |g1| * 10 ≤ |g2| * 10 := by linarith
    gcongr
  · intro a v g r1 r2 h
    unfold score_row
    have : |r1| * 10 ≤ |r2| * 10 := by linarith
    gcongr
  · intro v g r
    simp [score_row]
  · intro a g r
    simp [score_row]
  · intro a v r
    simp [score_row]
  · intro a v g
    simp [score_row]

/-- C9 witness: the monotonicity conjuncts applied at concrete inputs. -/
theorem score_row_monotone_witness :
    score_row (some 0) none none none ≤ score_row (some 1) none none none
    ∧ score_row none (some 1) none none ≤ score_row none (some 2) none none
    ∧ score_row none none (some 0) none ≤ score_row none none (some (-2)) none
    ∧ score_row none none none (some 1) ≤ score_row none none none (some 2) :=
  ⟨score_row_monotone.1 none none none 0 1 (by norm_num),
    score_row_monotone.2.1 none none none 1 2 (by norm_num),
    score_row_monotone.2.2.1 none none none 0 (-2) (by norm_num),
    score_row_monotone.2.2.2.1 none none none 1 2 (by norm_num)⟩

/-- C7: `get_options_liquidity` returns `none` exactly when the spot price is
missing or `≤ 0`, or no option-chain expiry `≥ trade_date` with rows on that
date exists, or the open-interest and volume sums over the in-band strikes at
the nearest expiry are both zero; otherwise it returns the populated
snapshot. -/
theorem get_options_liquidity_none_iff :
    ∀ (spotPrice : Option ℚ) (rows : List OptionRow) (d : ℤ) (band : ℚ),
      (get_options_liquidity spotPrice rows d band = none ↔
        spotPrice = none
        ∨ ∃ spot, spotPrice = some spot
            ∧ (spot ≤ 0
               ∨ get_nearest_expiry rows d = none
               ∨ ∃ e, get_nearest_expiry rows d = some e
                   ∧ bandOI rows e spot band = 0 ∧ bandVolume rows e spot band = 0))
      ∧ (∀ spot e, spotPrice = some spot → 0 < spot →
          get_nearest_expiry rows d = some e →
          ¬(bandOI rows e spot band = 0 ∧ bandVolume rows e spot band = 0) →
          get_options_liquidity spotPrice rows d band
            = some ⟨spot, e, bandOI rows e spot band, bandVolume rows e spot band⟩) := by
  intro spotPrice rows d band
  constructor
  · cases spotPrice with
    | none => simp [get_options_liquidity]
    | some spot =>
      by_cases hs : spot ≤ 0
      · simp [get_options_liquidity, hs]
      · cases he : get_nearest_expiry rows d with
        | none => simp [get_options_liquidity, hs, he]
        | some e =>
          by_cases hz : bandOI rows e spot band = 0 ∧ bandVolume rows e spot band = 0
          · simp [get_options_liquidity, hs, he, hz]
          · simp [get_options_liquidity, hs, he, hz]
  · intro spot e hsp hpos he hz
    subst hsp
    simp [get_options_liquidity, he, hz, not_le.mpr hpos]

/-- C7 witness: the spec's concrete scenario — spot 450, one in-band row at a
valid expiry with OI 1200 and volume 300 — yields the populated snapshot. -/
theorem get_options_liquidity_none_iff_witness :
    get_options_liquidity (some 450) [⟨10, 450, 1200, 300⟩] 0 (1/10)
      = some ⟨450, 10, 1200, 300⟩ := by
  have h := (get_options_liquidity_none_iff (some 450) [⟨10, 450, 1200, 300⟩] 0
    (1/10)).2 450 10 rfl (by norm_num)
    (by norm_num [get_nearest_expiry, minList])
  have hoi : bandOI [⟨10, 450, 1200, 300⟩] 10 450 (1/10) = 1200 := by
    norm_num [bandOI, bandRows]
  have hvol : bandVolume [⟨10, 450, 1200, 300⟩] 10 450 (1/10) = 300 := by
    norm_num [bandVolume, bandRows]
  rw [hoi, hvol] at h
  exact h (by norm_num)

/-- The single-row history used as the C5 counterexample. -/
def exRow : PriceRow := ⟨0, 100, 100, 100, 100, 10⟩

/-- C5 counterexample: on a one-row history the `return` column is the raw
`pct_change()`, which is `NaN` (`none`) on the first row — not `0`; the
`prev_close := close` fill does not feed into `return`. -/
theorem first_row_return_missing :
    retF [exRow] 0 = none
    ∧ (score_symbol_for_date "X" [exRow] 0).map Metrics.ret = some none
    ∧ (score_symbol_for_date "X" [exRow] 0).map Metrics.ret ≠ some (some 0) := by
  refine ⟨rfl, ?_, ?_⟩
  · simp [score_symbol_for_date, exRow, List.findIdx?_cons, retF]
  · simp [score_symbol_for_date, exRow, List.findIdx?_cons, retF]

/-- C5 (amended): for any one-row history with positive close and volume,
`prev_close` of the first row is its own close, and `score_symbol_for_date`
returns metrics in which atr_pct, vol_spike (= 1) and gap_pct are all
defined, `return` is missing (`NaN`, treated as 0 by the scorer), and the
score is the finite value `100·atr_pct + 10·|gap_pct|`. -/
theorem single_row_features_defined :
    ∀ (r : PriceRow) (sym : String), 0 < r.close → 0 < r.volume →
      prev_close [r] 0 = r.close
      ∧ score_symbol_for_date sym [r] r.date
        = some
          { symbol := some sym
            score := true_range [r] 0 / r.close * 100
              + |(r.open_ - r.close) / r.close| * 10
            atr_pct := some (true_range [r] 0 / r.close)
            vol_spike := some 1
            gap_pct := some ((r.open_ - r.close) / r.close)
            ret := none } := by
  intro r sym hc hv
  have hwin : windowIdx 0 = [0] := rfl
  have hprev : prev_close [r] 0 = r.close := rfl
  have hatr : atr [r] 0 = true_range [r] 0 := by
    rw [atr, hwin]
    simp
  have hvma : vol_ma [r] 0 = r.volume := by
    rw [vol_ma, hwin]
    simp [volumeAt]
  have hvs : vol_spike [r] 0 = 1 := by
    rw [vol_spike, hvma]
    exact div_self (ne_of_gt hv)
  have hgap : gap_pct [r] 0 = (r.open_ - r.close) / r.close := by
    rw [gap_pct, hprev]
    rfl
  have hap : atr_pct [r] 0 = true_range [r] 0 / r.close := by
    rw [atr_pct, hatr]
    rfl
  refine ⟨hprev, ?_⟩
  rw [score_symbol_for_date]
  have hne : ([r] : List PriceRow) ≠ [] := by simp
  rw [if_neg hne]
  have hidx : ([r] : List PriceRow).findIdx? (fun row => row.date = r.date)
      = some 0 := by
    simp [List.findIdx?_cons]
  simp only [hidx]
  have hret : retF [r] 0 = none := rfl
  rw [hret, hap, hvs, hgap]
  norm_num [score_row]

/-- C5 witness for the amended claim: the single-row history
`(date 0, open 101, high 103, low 99, close 100, volume 10)`. -/
theorem single_row_features_defined_witness :
    prev_close [⟨0, 101, 103, 99, 100, 10⟩] 0 = (100 : ℚ)
    ∧ score_symbol_for_date "X" [⟨0, 101, 103, 99, 100, 10⟩] 0
      = some
        { symbol := some "X"
          score := true_range [⟨0, 101, 103, 99, 100, 10⟩] 0 / 100 * 100
            + |((101 : ℚ) - 100) / 100| * 10
          atr_pct := some (true_range [⟨0, 101, 103, 99, 100, 10⟩] 0 / 100)
          vol_spike := some 1
          gap_pct := some (((101 : ℚ) - 100) / 100)
          ret := none } :=
  single_row_features_defined ⟨0, 101, 103, 99, 100, 10⟩ "X" (by norm_num)
    (by norm_num)

/-- `findSome?` over a one-element list is the function value. -/
theorem findSome?_singleton {α β : Type _} (f : α → Option β) (x : α) :
    List.findSome? f [x] = f x := by
  cases h : f x <;> simp [List.findSome?_cons, h]

/-- `findSome?` over a two-element list is an `orElse`. -/
theorem findSome?_pair {α β : Type _} (f : α → Option β) (x y : α) :
    List.findSome? f [x, y] = (f x).orElse (fun _ => f y) := by
  cases h : f x <;> cases h2 : f y <;>
    simp [List.findSome?_cons, h, h2, Option.orElse]

/-- `orElse` with an empty fallback is the identity. -/
theorem orElse_none_right {α : Type _} (o : Option α) :
    (o.orElse fun _ => none) = o := by
  cases o <;> rfl

/-- Metrics entry used in the C4 scenario (found at the fallback date). -/
def mC4 : Metrics := ⟨some "X", 0, some (1/50), some 1, some 0, some 0⟩

/-- Classification used in the C4 scenario. -/
def clsC4 : Classification :=
  ⟨some "neutral", some "bullish", some "next_day", some "high", none, none⟩

/-- Metrics oracle for C4: no data on the announcement date 5, data on
date 4 — so the technical fallback date is 4. -/
def metricsOracleC4 : ℤ → Option Metrics := fun d =>
  if d = 4 then some mC4 else none

/-- Liquidity oracle for C4: empty at (5, band 0.1), a snapshot with
`total_oi = 7` at (5, band 0.2), and a snapshot with `total_oi = 9` at
(4, band 0.1). -/
def liqOracleC4 : ℤ → ℚ → Option Liq := fun d b =>
  if d = 5 ∧ b = 2/10 then some ⟨100, 10, 7, 7⟩
  else if d = 4 ∧ b = 1/10 then some ⟨100, 10, 9, 9⟩
  else none

/-- The fallback-date search of the C4 scenario lands on date 4. -/
theorem find_metrics_oracleC4 : find_metrics metricsOracleC4 5 = some (4, mC4) := by
  have hr : List.range 6 = [0, 1, 2, 3, 4, 5] := rfl
  rw [find_metrics, hr]
  norm_num [metricsOracleC4, List.findSome?_cons]

/-- C4 counterexample: with liquidity absent at (announcement date, band
0.1) but present at (announcement date, band 0.2) and at (fallback date,
band 0.1), the code returns the announcement-date band-0.2 snapshot
(`total_oi = 7`), while the claimed search order (announcement date at band
0.1 only, then the fallback date) would return the fallback-date snapshot
(`total_oi = 9`). -/
theorem research_liquidity_order_counterexample :
    (research_stock_with_announcement true clsC4 5 metricsOracleC4
        liqOracleC4).options_liquidity.total_oi = 7
    ∧ resolve_liquidity liqOracleC4 5 4 = some ⟨100, 10, 7, 7⟩
    ∧ resolve_liquidity_claimed liqOracleC4 5 4 = some ⟨100, 10, 9, 9⟩
    ∧ ((7 : ℚ) ≠ 9) := by
  have hliq : resolve_liquidity liqOracleC4 5 4 = some ⟨100, 10, 7, 7⟩ := by
    rw [resolve_liquidity, if_pos (by norm_num)]
    norm_num [liqOracleC4, List.findSome?_cons, Option.orElse]
  refine ⟨?_, hliq, ?_, by norm_num⟩
  · simp only [research_stock_with_announcement, find_metrics_oracleC4]
    norm_num [hliq]
  · rw [resolve_liquidity_claimed]
    norm_num [liqOracleC4, Option.orElse]

/-- C4 (amended): the liquidity-resolution loop tries the announcement date
at band 0.1 and then band 0.2, and only then (when it differs) the fallback
date at band 0.1 and then band 0.2, the first non-empty snapshot winning;
when every attempt is empty, the research result's liquidity fields are
zero/absent. -/
theorem resolve_liquidity_order :
    (∀ (liqAt : ℤ → ℚ → Option Liq) (annDate usedDate : ℤ),
      resolve_liquidity liqAt annDate usedDate
        = resolve_liquidity_amended liqAt annDate usedDate)
    ∧ (∀ (cls : Classification) (annDate usedDate : ℤ)
        (metricsAt : ℤ → Option Metrics) (liqAt : ℤ → ℚ → Option Liq)
        (m : Metrics),
        find_metrics metricsAt annDate = some (usedDate, m) →
        resolve_liquidity liqAt annDate usedDate = none →
        (research_stock_with_announcement true cls annDate metricsAt
            liqAt).options_liquidity
          = ⟨0, 0, none⟩) := by
  constructor
  · intro liqAt annDate usedDate
    by_cases h : usedDate = annDate
    · subst h
      simp [resolve_liquidity, resolve_liquidity_amended, findSome?_singleton,
        orElse_none_right]
    · simp [resolve_liquidity, resolve_liquidity_amended, h, findSome?_pair]
  · intro cls annDate usedDate metricsAt liqAt m h1 h2
    simp only [research_stock_with_announcement, h1]
    simp [h2]

/-- C4 witness for the amended claim: the loop equality at a trivial oracle,
and zero/absent liquidity fields in the C4 scenario with an all-empty
liquidity oracle. -/
theorem resolve_liquidity_order_witness :
    resolve_liquidity (fun _ _ => none) 0 0
      = resolve_liquidity_amended (fun _ _ => none) 0 0
    ∧ (research_stock_with_announcement true clsC4 5 metricsOracleC4
        (fun _ _ => none)).options_liquidity = ⟨0, 0, none⟩ :=
  ⟨resolve_liquidity_order.1 (fun _ _ => none) 0 0,
    resolve_liquidity_order.2 clsC4 5 4 metricsOracleC4 (fun _ _ => none) mC4
      find_metrics_oracleC4
      (by simp [resolve_liquidity, List.findSome?_cons, Option.orElse])⟩

/-- Outside the F&O universe the confidence score is the constant 30. -/
theorem research_conf_path1 (cls : Classification) (annDate : ℤ)
    (metricsAt : ℤ → Option Metrics) (liqAt : ℤ → ℚ → Option Liq) :
    (research_stock_with_announcement false cls annDate metricsAt
      liqAt).final_recommendation.confidence_score = 30 := by
  simp [research_stock_with_announcement]

/-- With no technical data in the 6-day fallback window the confidence score
is 50 for a high-confidence classification and 30 otherwise. -/
theorem research_conf_path2 (cls : Classification) (annDate : ℤ)
    (metricsAt : ℤ → Option Metrics) (liqAt : ℤ → ℚ → Option Liq)
    (h : find_metrics metricsAt annDate = none) :
    (research_stock_with_announcement true cls annDate metricsAt
        liqAt).final_recommendation.confidence_score
      = if cls.confidence = some "high" then 50 else 30 := by
  simp [research_stock_with_announcement, h]

/-- On the full-research path the confidence score lies in `[50, 100]`. -/
theorem research_conf_path3_bounds (cls : Classification) (annDate : ℤ)
    (metricsAt : ℤ → Option Metrics) (liqAt : ℤ → ℚ → Option Liq)
    (usedDate : ℤ) (m : Metrics)
    (h : find_metrics metricsAt annDate = some (usedDate, m)) :
    50 ≤ (research_stock_with_announcement true cls annDate metricsAt
        liqAt).final_recommendation.confidence_score
    ∧ (research_stock_with_announcement true cls annDate metricsAt
        liqAt).final_recommendation.confidence_score ≤ 100 := by
  simp only [research_stock_with_announcement, h]
  constructor
  · refine le_min ?_ (by norm_num)
    have b1 : (0 : ℤ) ≤ if (cls.ai_direction.getD "neutral"
        = (classify_direction_and_strategy m.ret m.vol_spike m.gap_pct
          m.atr_pct).1
        ∧ (classify_direction_and_strategy m.ret m.vol_spike m.gap_pct
          m.atr_pct).1 ≠ "neutral") then 20 else 0 := by
      split_ifs <;> norm_num
    have b2 : (0 : ℤ) ≤ if cls.confidence.getD "low" = "high" then 15
        else if cls.confidence.getD "low" = "medium" then 10 else 0 := by
      split_ifs <;> norm_num
    have b3 : (0 : ℤ) ≤ if ogtb m.vol_spike (3/2) = true then 10 else 0 := by
      split_ifs <;> norm_num
    have b4 : (0 : ℤ) ≤ if ogtb (Option.map abs m.ret) (3/100) = true then 10
        else 0 := by
      split_ifs <;> norm_num
    omega
  · exact min_le_right _ _

/-- C10 (implicit): every research result has confidence score at least 30;
it is exactly 30 outside the F&O universe, exactly 30 or 50 when no
technical data is found in the 6-day fallback, and within `[50, 100]` on the
full-research path — so the clamp never binds at the lower end. -/
theorem research_confidence_floor :
    (∀ (fno : Bool) (cls : Classification) (annDate : ℤ)
        (metricsAt : ℤ → Option Metrics) (liqAt : ℤ → ℚ → Option Liq),
      30 ≤ (research_stock_with_announcement fno cls annDate metricsAt
        liqAt).final_recommendation.confidence_score)
    ∧ (∀ cls annDate metricsAt liqAt,
      (research_stock_with_announcement false cls annDate metricsAt
        liqAt).final_recommendation.confidence_score = 30)
    ∧ (∀ cls annDate metricsAt liqAt,
      find_metrics metricsAt annDate = none →
      (research_stock_with_announcement true cls annDate metricsAt
          liqAt).final_recommendation.confidence_score = 30
      ∨ (research_stock_with_announcement true cls annDate metricsAt
          liqAt).final_recommendation.confidence_score = 50)
    ∧ (∀ cls annDate metricsAt liqAt usedDate m,
      find_metrics metricsAt annDate = some (usedDate, m) →
      50 ≤ (research_stock_with_announcement true cls annDate metricsAt
        liqAt).final_recommendation.confidence_score
      ∧ (research_stock_with_announcement true cls annDate metricsAt
        liqAt).final_recommendation.confidence_score ≤ 100) := by
  refine ⟨?_, research_conf_path1, ?_, research_conf_path3_bounds⟩
  · intro fno cls annDate metricsAt liqAt
    cases fno with
    | false => rw [research_conf_path1]
    | true =>
      rcases hm : find_metrics metricsAt annDate with _ | ⟨usedDate, m⟩
      · rw [research_conf_path2 cls annDate metricsAt liqAt hm]
        split_ifs <;> norm_num
      · have := (research_conf_path3_bounds cls annDate metricsAt liqAt
          usedDate m hm).1
        linarith
  · intro cls annDate metricsAt liqAt hm
    rw [research_conf_path2 cls annDate metricsAt liqAt hm]
    split_ifs <;> simp

/-- C10 witness: the paths exercised at concrete oracles. -/
theorem research_confidence_floor_witness :
    30 ≤ (research_stock_with_announcement true clsC4 5 metricsOracleC4
      liqOracleC4).final_recommendation.confidence_score
    ∧ (research_stock_with_announcement false clsC4 5 metricsOracleC4
      liqOracleC4).final_recommendation.confidence_score = 30
    ∧ ((research_stock_with_announcement true clsC4 5 (fun _ => none)
        liqOracleC4).final_recommendation.confidence_score = 30
      ∨ (research_stock_with_announcement true clsC4 5 (fun _ => none)
        liqOracleC4).final_recommendation.confidence_score = 50)
    ∧ (50 ≤ (research_stock_with_announcement true clsC4 5 metricsOracleC4
        liqOracleC4).final_recommendation.confidence_score
      ∧ (research_stock_with_announcement true clsC4 5 metricsOracleC4
        liqOracleC4).final_recommendation.confidence_score ≤ 100) :=
  ⟨research_confidence_floor.1 true clsC4 5 metricsOracleC4 liqOracleC4,
    research_confidence_floor.2.1 clsC4 5 metricsOracleC4 liqOracleC4,
    research_confidence_floor.2.2.1 clsC4 5 (fun _ => none) liqOracleC4 rfl,
    research_confidence_floor.2.2.2 clsC4 5 metricsOracleC4 liqOracleC4 4 mC4
      find_metrics_oracleC4⟩

/-- Classification for the trade-ready witness scenario. -/
def clsW : Classification :=
  ⟨some "results_positive", some "bullish", some "next_day", some "high",
    none, none⟩

/-- Metrics for the trade-ready witness scenario: a strong bullish day. -/
def mW : Metrics := ⟨some "X", 0, some (1/50), some 2, some 0, some (1/20)⟩

/-- Metrics oracle: data on the announcement date 0. -/
def metricsOracleW : ℤ → Option Metrics := fun d =>
  if d = 0 then some mW else none

/-- Liquidity oracle: a healthy snapshot everywhere. -/
def liqOracleW : ℤ → ℚ → Option Liq := fun _ _ => some ⟨450, 10, 1200, 300⟩

/-- The witness scenario produces a trade-ready recommendation. -/
theorem trade_ready_holds_W :
    (research_stock_with_announcement true clsW 0 metricsOracleW
      liqOracleW).final_recommendation.trade_ready = true := by
  have hfm : find_metrics metricsOracleW 0 = some (0, mW) := by
    have hr : List.range 6 = [0, 1, 2, 3, 4, 5] := rfl
    rw [find_metrics, hr]
    norm_num [metricsOracleW, List.findSome?_cons]
  have hliq : resolve_liquidity liqOracleW 0 0 = some ⟨450, 10, 1200, 300⟩ := by
    simp [resolve_liquidity, findSome?_singleton, liqOracleW, Option.orElse]
  simp only [research_stock_with_announcement, hfm, hliq]
  norm_num [classify_direction_and_strategy, ogeb, ogtb, oleb, oltb, clsW, mW]
  rw [if_neg (by decide : ¬("bullish" = "neutral")),
    if_pos (by rw [abs_of_pos (by norm_num : (0:ℚ) < 1/20)]; norm_num)]
  norm_num

/-- C1: whenever a research result has `trade_ready` true, its confidence
score is at least 60 and its reported `options_liquidity.total_oi` is
positive — over all inputs, hence on all three return paths (outside the
F&O universe, no technical data, full research). -/
theorem research_trade_ready_invariant :
    ∀ (fno : Bool) (cls : Classification) (annDate : ℤ)
      (metricsAt : ℤ → Option Metrics) (liqAt : ℤ → ℚ → Option Liq),
      (research_stock_with_announcement fno cls annDate metricsAt
        liqAt).final_recommendation.trade_ready = true →
      60 ≤ (research_stock_with_announcement fno cls annDate metricsAt
        liqAt).final_recommendation.confidence_score
      ∧ 0 < (research_stock_with_announcement fno cls annDate metricsAt
        liqAt).options_liquidity.total_oi := by
  intro fno cls annDate metricsAt liqAt h
  cases fno with
  | false => simp [research_stock_with_announcement] at h
  | true =>
    rcases hm : find_metrics metricsAt annDate with _ | ⟨usedDate, m⟩
    · rw [research_stock_with_announcement] at h
      simp [hm] at h
    · simp only [research_stock_with_announcement, hm] at h ⊢
      rcases hl : resolve_liquidity liqAt annDate usedDate with _ | l
      · rw [hl] at h
        simp at h
      · rw [hl] at h
        simp [ogtb, Bool.and_eq_true, decide_eq_true_eq] at h ⊢
        exact ⟨h.1, h.2⟩

/-- C1 witness: a concrete full-research run whose result is trade-ready. -/
theorem research_trade_ready_invariant_witness :
    60 ≤ (research_stock_with_announcement true clsW 0 metricsOracleW
      liqOracleW).final_recommendation.confidence_score
    ∧ 0 < (research_stock_with_announcement true clsW 0 metricsOracleW
      liqOracleW).options_liquidity.total_oi :=
  research_trade_ready_invariant true clsW 0 metricsOracleW liqOracleW
    trade_ready_holds_W

/-- C3: the classify loop retries exactly once after a rate-limit-signature
error and the retry outcome decides the item; any other error, or a failed
retry, skips the single item while the rest of the batch is processed
unchanged; and `classify_announcement` itself never raises — on an internal
error it returns the low-confidence neutral default. -/
theorem classification_retry_policy :
    (∀ e, classify_announcement (.error e)
      = ⟨some "neutral", some "neutral", some "1_3_days", some "low",
          some ("Classification error: " ++ e), none⟩)
    ∧ (∀ (call : Announcement → ℕ → Except String Classification)
        (minLevel : ℕ) (ann : Announcement) (rest : List Announcement)
        (e : String) (c : Classification),
        strFalsy ann.symbol = false → strFalsy ann.headline = false →
        call ann 0 = .error e → is_rate_limit e = true → call ann 1 = .ok c →
        classification_pass call minLevel (ann :: rest)
          = (if passes_filter c minLevel then [attach_classification ann c]
             else []) ++ classification_pass call minLevel rest)
    ∧ (∀ (call : Announcement → ℕ → Except String Classification)
        (minLevel : ℕ) (ann : Announcement) (rest : List Announcement)
        (e e2 : String),
        call ann 0 = .error e → is_rate_limit e = true →
        call ann 1 = .error e2 →
        classification_pass call minLevel (ann :: rest)
          = classification_pass call minLevel rest)
    ∧ (∀ (call : Announcement → ℕ → Except String Classification)
        (minLevel : ℕ) (ann : Announcement) (rest : List Announcement)
        (e : String),
        call ann 0 = .error e → is_rate_limit e = false →
        classification_pass call minLevel (ann :: rest)
          = classification_pass call minLevel rest) := by
  refine ⟨fun e => rfl, ?_, ?_, ?_⟩
  · intro call minLevel ann rest e c hs hh h0 hr h1
    simp only [classification_pass, hs, hh, h0, hr, h1]
    simp
  · intro call minLevel ann rest e e2 h0 hr h1
    by_cases hs : (strFalsy ann.symbol || strFalsy ann.headline) = true
    · simp only [classification_pass, hs]
      simp
    · simp only [classification_pass, Bool.not_eq_true] at hs ⊢
      simp only [hs, h0, hr, h1]
      simp
  · intro call minLevel ann rest e h0 hr
    by_cases hs : (strFalsy ann.symbol || strFalsy ann.headline) = true
    · simp only [classification_pass, hs]
      simp
    · simp only [classification_pass, Bool.not_eq_true] at hs ⊢
      simp only [hs, h0, hr]
      simp

/-- Announcement used in the C3/C2 witness scenarios. -/
def annT : Announcement :=
  ⟨some "X", some "Q2 results", some "2024-01-01", some "result", none, none,
    none⟩

/-- Classification returned by the witness classifier. -/
def clsT : Classification :=
  ⟨some "results_positive", some "bullish", some "next_day", some "high",
    none, none⟩

/-- Call oracle: first call hits a 429, the retry succeeds. -/
def callRetryOk : Announcement → ℕ → Except String Classification :=
  fun _ n => if n = 0 then .error "429 Too Many Requests" else .ok clsT

/-- Call oracle: every call fails with a rate-limit message. -/
def callRetryFail : Announcement → ℕ → Except String Classification :=
  fun _ _ => .error "rate limit exceeded"

/-- Call oracle: a non-rate-limit failure. -/
def callOther : Announcement → ℕ → Except String Classification :=
  fun _ _ => .error "boom"

/-- C3 witness: the three error-handling paths at concrete inputs. -/
theorem classification_retry_policy_witness :
    classification_pass callRetryOk 2 [annT]
      = (if passes_filter clsT 2 then [attach_classification annT clsT]
         else []) ++ classification_pass callRetryOk 2 []
    ∧ classification_pass callRetryFail 2 [annT]
      = classification_pass callRetryFail 2 []
    ∧ classification_pass callOther 2 [annT]
      = classification_pass callOther 2 [] :=
  ⟨classification_retry_policy.2.1 callRetryOk 2 annT [] "429 Too Many Requests"
      clsT rfl rfl rfl (by decide) rfl,
    classification_retry_policy.2.2.1 callRetryFail 2 annT []
      "rate limit exceeded" "rate limit exceeded" rfl (by decide) rfl,
    classification_retry_policy.2.2.2 callOther 2 annT [] "boom" rfl
      (by decide)⟩

/-- C2: a raised exception in the scrape or classify stage moves the state
to the `error` step; the later stage functions then skip their work (the
pipeline outcome is independent of the later stages' oracles), while the
outputs accumulated before the failure and a non-empty error list are
preserved in the returned summary. -/
theorem pipeline_stage_failure_shortcircuit :
    (∀ (d : ℤ) (e : String)
        (classifyO₁ classifyO₂ : List Announcement
          → Except String (List Announcement))
        (researchO₁ researchO₂ : List Announcement
          → Except String (List ResearchResult)),
      (scrape_stage (initial_state d) (.error e)).step = "error"
      ∧ run_daily_announcement_pipeline d (.error e) classifyO₁ researchO₁
        = run_daily_announcement_pipeline d (.error e) classifyO₂ researchO₂
      ∧ (run_daily_announcement_pipeline d (.error e) classifyO₁
          researchO₁).errors = ["Scraping error: " ++ e]
      ∧ (run_daily_announcement_pipeline d (.error e) classifyO₁
          researchO₁).errors ≠ [])
    ∧ (∀ (d : ℤ) (e : String) (anns : List Announcement)
        (classifyO : List Announcement → Except String (List Announcement))
        (researchO₁ researchO₂ : List Announcement
          → Except String (List ResearchResult)),
      anns ≠ [] → classifyO anns = .error e →
      (classify_stage (scrape_stage (initial_state d) (.ok anns))
        classifyO).step = "error"
      ∧ run_daily_announcement_pipeline d (.ok anns) classifyO researchO₁
        = run_daily_announcement_pipeline d (.ok anns) classifyO researchO₂
      ∧ (run_daily_announcement_pipeline d (.ok anns) classifyO
          researchO₁).announcements = anns
      ∧ (run_daily_announcement_pipeline d (.ok anns) classifyO
          researchO₁).errors = ["Classification error: " ++ e]
      ∧ (run_daily_announcement_pipeline d (.ok anns) classifyO
          researchO₁).errors ≠ []) := by
  constructor
  · intro d e classifyO₁ classifyO₂ researchO₁ researchO₂
    refine ⟨rfl, ?_, ?_, ?_⟩ <;>
      simp [run_daily_announcement_pipeline, scrape_stage, classify_stage,
        research_stage, initial_state]
  · intro d e anns classifyO researchO₁ researchO₂ hne hc
    refine ⟨?_, ?_, ?_, ?_, ?_⟩ <;>
      simp [run_daily_announcement_pipeline, scrape_stage, classify_stage,
        research_stage, initial_state, hne, hc]

/-- C2 witness: a failing scrape and a failing classify at concrete inputs. -/
theorem pipeline_stage_failure_shortcircuit_witness :
    ((scrape_stage (initial_state 0) (.error "boom")).step = "error"
      ∧ run_daily_announcement_pipeline 0 (.error "boom") (fun _ => .ok [])
          (fun _ => .ok [])
        = run_daily_announcement_pipeline 0 (.error "boom")
          (fun _ => .error "x") (fun _ => .error "y")
      ∧ (run_daily_announcement_pipeline 0 (.error "boom") (fun _ => .ok [])
          (fun _ => .ok [])).errors = ["Scraping error: " ++ "boom"]
      ∧ (run_daily_announcement_pipeline 0 (.error "boom") (fun _ => .ok [])
          (fun _ => .ok [])).errors ≠ [])
    ∧ ((classify_stage (scrape_stage (initial_state 0) (.ok [annT]))
          (fun _ => .error "boom")).step = "error"
      ∧ run_daily_announcement_pipeline 0 (.ok [annT]) (fun _ => .error "boom")
          (fun _ => .ok [])
        = run_daily_announcement_pipeline 0 (.ok [annT]) (fun _ => .error "boom")
          (fun _ => .error "y")
      ∧ (run_daily_announcement_pipeline 0 (.ok [annT]) (fun _ => .error "boom")
          (fun _ => .ok [])).announcements = [annT]
      ∧ (run_daily_announcement_pipeline 0 (.ok [annT]) (fun _ => .error "boom")
          (fun _ => .ok [])).errors = ["Classification error: " ++ "boom"]
      ∧ (run_daily_announcement_pipeline 0 (.ok [annT]) (fun _ => .error "boom")
          (fun _ => .ok [])).errors ≠ []) :=
  ⟨pipeline_stage_failure_shortcircuit.1 0 "boom" (fun _ => .ok [])
      (fun _ => .error "x") (fun _ => .ok []) (fun _ => .error "y"),
    pipeline_stage_failure_shortcircuit.2 0 "boom" [annT]
      (fun _ => .error "boom") (fun _ => .ok []) (fun _ => .error "y")
      (by simp) rfl⟩

end OptionAgent
